import Mathlib

/-!
Verification of the hole-geometry resolution algorithm and export pipeline
of the chimney chase-cover measurement tool (`chase_cover_app.py`).

All quantities are modelled as exact rationals (the program computes with
machine floats; the formulas themselves are the object of study).
A distance of zero encodes "not measured", exactly as in the program,
where only strictly positive form values are inserted into the
`distances` dictionary.
-/

/-- The per-hole form inputs of one iteration of the tab2 loop:
collar height, the four edge distances (0 = not provided, mirroring the
`distances` dict which only receives strictly positive entries), and the
optional measured diameter. -/
structure HoleInput where
  collar_height : ℚ
  left : ℚ
  right : ℚ
  back : ℚ
  front : ℚ
  measured_diameter : ℚ
deriving DecidableEq

/-- Membership test `"left" in distances`: the left distance is positive. -/
def hasLeft (hi : HoleInput) : Bool := hi.left > 0

/-- Membership test `"right" in distances`. -/
def hasRight (hi : HoleInput) : Bool := hi.right > 0

/-- Membership test `"front" in distances`. -/
def hasFront (hi : HoleInput) : Bool := hi.front > 0

/-- Membership test `"back" in distances`. -/
def hasBack (hi : HoleInput) : Bool := hi.back > 0

/-- Count `len(distances)`: how many of the four edge distances are provided
(strictly positive). -/
def numProvided (hi : HoleInput) : Nat :=
  (if hasLeft hi then 1 else 0) + (if hasRight hi then 1 else 0) +
  (if hasFront hi then 1 else 0) + (if hasBack hi then 1 else 0)

/-- The five loop-local geometry variables of the tab2 loop, after the
`if len(distances) >= 3` block has run (all start at 0.0). -/
structure HoleCalc where
  diameter : ℚ
  x_pos : ℚ
  y_pos : ℚ
  diameter_x : ℚ
  diameter_y : ℚ
deriving DecidableEq

/-- Faithful translation of the geometry block of the tab2 loop
(lines 141-161 of `chase_cover_app.py`): the X axis sets `diameter_x`
and `x_pos`, then the Y axis sets `diameter_y`, `y_pos` and the final
`diameter`; variables not assigned keep their 0.0 initialisation. -/
def computeHole (width length : ℚ) (hi : HoleInput) : HoleCalc :=
  if 3 ≤ numProvided hi then
    let xPart : ℚ × ℚ :=
      if hasLeft hi && hasRight hi then
        let dx := width - hi.left - hi.right
        (dx, hi.left + dx / 2)
      else if hasLeft hi then
        let dx := (width - hi.left) / 2
        (dx, hi.left + dx / 2)
      else if hasRight hi then
        let dx := (width - hi.right) / 2
        (dx, width - hi.right - dx / 2)
      else (0, 0)
    let diameter_x := xPart.1
    let x_pos := xPart.2
    if hasFront hi && hasBack hi then
      let diameter_y := length - hi.front - hi.back
      let y_pos := hi.back + diameter_y / 2
      let diameter :=
        if hasLeft hi && hasRight hi then (diameter_x + diameter_y) / 2
        else diameter_y
      ⟨diameter, x_pos, y_pos, diameter_x, diameter_y⟩
    else if hasBack hi then
      let diameter := diameter_x
      ⟨diameter, x_pos, hi.back + diameter / 2, diameter_x, 0⟩
    else if hasFront hi then
      let diameter := diameter_x
      ⟨diameter, x_pos, length - hi.front - diameter / 2, diameter_x, 0⟩
    else
      ⟨0, x_pos, 0, diameter_x, 0⟩
  else
    ⟨0, 0, 0, 0, 0⟩

/-- The diameter-mismatch check (lines 171-173): only when all four
distances are provided, warn when the two axis estimates differ by more
than 0.1 inch. -/
def mismatchWarning (width length : ℚ) (hi : HoleInput) : Bool :=
  let c := computeHole width length hi
  hasLeft hi && hasRight hi && hasFront hi && hasBack hi &&
    |c.diameter_x - c.diameter_y| > (1 : ℚ) / 10

/-- The dictionary appended to `holes` at line 177: the provided distances
(0 encodes an absent key), the final diameter, the resolved center, the
collar height and the optional measured diameter. -/
structure Hole where
  d_left : ℚ
  d_right : ℚ
  d_front : ℚ
  d_back : ℚ
  diameter : ℚ
  x : ℚ
  y : ℚ
  collar_height : ℚ
  measured_diameter : ℚ
deriving DecidableEq

/-- Lines 175-177: build the hole record; the stored diameter is the
measured diameter when positive, else the computed one. -/
def mkHole (width length : ℚ) (hi : HoleInput) : Hole :=
  let c := computeHole width length hi
  { d_left := if hasLeft hi then hi.left else 0
    d_right := if hasRight hi then hi.right else 0
    d_front := if hasFront hi then hi.front else 0
    d_back := if hasBack hi then hi.back else 0
    diameter := if hi.measured_diameter > 0 then hi.measured_diameter else c.diameter
    x := c.x_pos
    y := c.y_pos
    collar_height := hi.collar_height
    measured_diameter := hi.measured_diameter }

/-- The form values a single submission depends on (tab1 dimensions and
options plus the per-hole tab2 inputs). -/
structure FormInput where
  width : ℚ
  length : ℚ
  fit_tolerance : ℚ
  flange_length : ℚ
  add_kickout : Bool
  holeInputs : List HoleInput
deriving DecidableEq

/-- Flag `all_valid` of the tab2 loop: true when every hole has at least three
provided distances. -/
def all_valid (f : FormInput) : Bool :=
  f.holeInputs.all (fun hi => decide (3 ≤ numProvided hi))

/-- A matplotlib patch of the 2D sketch: `Rectangle(corner, w, h)` or
`Circle(center, radius)`. -/
inductive SketchPatch where
  | rect (corner : ℚ × ℚ) (w h : ℚ) : SketchPatch
  | circle (center : ℚ × ℚ) (radius : ℚ) : SketchPatch
deriving DecidableEq

/-- The patches drawn by the sketch code (lines 235-251), called with the
tolerance-adjusted width `aw` and length `al`: base rectangle, flange
rectangle, kickout or trim rectangles, one circle per hole. -/
def sketchPatches (aw al fl : ℚ) (ko : Bool) (holes : List Hole) : List SketchPatch :=
  [ .rect (0, 0) aw al,
    .rect (-fl, -fl) (aw + 2 * fl) (al + 2 * fl) ]
  ++ (if ko then
        [ .rect (-fl - 1/2, -fl - 1/2) (aw + 2 * fl + 1) (al + 2 * fl + 1),
          .rect (-fl - 7/8, -fl - 7/8) (aw + 2 * fl + 7/4) (al + 2 * fl + 7/4) ]
      else
        [ .rect (-fl - 3/8, -fl - 3/8) (aw + 2 * fl + 3/4) (al + 2 * fl + 3/4) ])
  ++ holes.map (fun h => .circle (h.x, h.y) (h.diameter / 2))

/-- What a successful submission stores: the resolved holes and the sketch. -/
structure Submission where
  holes : List Hole
  sketch : List SketchPatch
deriving DecidableEq

/-- The error message shown at line 218 when some hole is insufficient. -/
def insufficientMsg : String :=
  "Please ensure at least 3 measurements are entered for each hole."

/-- The submit handler (lines 216-271): reject the whole submission when
`all_valid` is false, otherwise resolve every hole against the raw
width/length and draw the sketch with the tolerance-adjusted dimensions. -/
def processSubmission (f : FormInput) : Except String Submission :=
  if all_valid f then
    let holes := f.holeInputs.map (mkHole f.width f.length)
    Except.ok
      { holes := holes
        sketch := sketchPatches (f.width + f.fit_tolerance) (f.length + f.fit_tolerance)
          f.flange_length f.add_kickout holes }
  else
    Except.error insufficientMsg

/-- A DXF modelspace entity: a closed 4-corner polyline or a circle
(z-coordinates, all 0 in the source, are omitted). -/
inductive DxfEntity where
  | polyline (p1 p2 p3 p4 : ℚ × ℚ) : DxfEntity
  | circle (center : ℚ × ℚ) (radius : ℚ) : DxfEntity
deriving DecidableEq

/-- Faithful translation of `create_dxf_buffer` (lines 20-46): base
rectangle, flange rectangle, two kickout rectangles (+0.5, +0.875 beyond
the flange) or one trim rectangle (+0.375), then one circle per hole. -/
def create_dxf_buffer (width length flange_length : ℚ) (add_kickout : Bool)
    (holes : List Hole) : List DxfEntity :=
  [ .polyline (0, 0) (width, 0) (width, length) (0, length),
    .polyline (-flange_length, -flange_length) (width + flange_length, -flange_length)
      (width + flange_length, length + flange_length) (-flange_length, length + flange_length) ]
  ++ (if add_kickout then
        [ .polyline (-flange_length - 1/2, -flange_length - 1/2)
            (width + flange_length + 1/2, -flange_length - 1/2)
            (width + flange_length + 1/2, length + flange_length + 1/2)
            (-flange_length - 1/2, length + flange_length + 1/2),
          .polyline (-flange_length - 7/8, -flange_length - 7/8)
            (width + flange_length + 7/8, -flange_length - 7/8)
            (width + flange_length + 7/8, length + flange_length + 7/8)
            (-flange_length - 7/8, length + flange_length + 7/8) ]
      else
        [ .polyline (-flange_length - 3/8, -flange_length - 3/8)
            (width + flange_length + 3/8, -flange_length - 3/8)
            (width + flange_length + 3/8, length + flange_length + 3/8)
            (-flange_length - 3/8, length + flange_length + 3/8) ])
  ++ holes.map (fun h => .circle (h.x, h.y) (h.diameter / 2))

/-- Spec-side description of one outline rectangle: the base
(width × length) rectangle offset outward by `o` on all sides. -/
def offsetRect (width length o : ℚ) : DxfEntity :=
  .polyline (-o, -o) (width + o, -o) (width + o, length + o) (-o, length + o)

/-- Spec-side description of the DXF contents, following the words of the
specification: the base rectangle, the flange rectangle offset by
`flange_length`, two further rectangles at additional offsets 0.5 and
0.875 when kickout is enabled or one at 0.375 when not, and one circle
per hole at (x, y) with radius diameter / 2. -/
def dxfOutlineSpec (width length flange_length : ℚ) (add_kickout : Bool)
    (holes : List Hole) : List DxfEntity :=
  [ offsetRect width length 0, offsetRect width length flange_length ]
  ++ (if add_kickout then
        [ offsetRect width length (flange_length + 1/2),
          offsetRect width length (flange_length + 7/8) ]
      else
        [ offsetRect width length (flange_length + 3/8) ])
  ++ holes.map (fun h => .circle (h.x, h.y) (h.diameter / 2))

/-- The send-to-shop DXF call (line 306): adjusted dimensions, the
flange length, kickout flag and resolved holes of the session. -/
def exportDxf (f : FormInput) (holes : List Hole) : List DxfEntity :=
  create_dxf_buffer (f.width + f.fit_tolerance) (f.length + f.fit_tolerance)
    f.flange_length f.add_kickout holes

/-- The circumference printed in the email body (line 337):
`math.pi * hole["diameter"]`; `pi_v` stands for the float constant
`math.pi`. -/
def emailCircumference (pi_v : ℚ) (h : Hole) : ℚ := pi_v * h.diameter

/-- The circumference stored in the JSON snapshot (line 380):
`math.pi * hole["diameter"]`. -/
def jsonCircumference (pi_v : ℚ) (h : Hole) : ℚ := pi_v * h.diameter

/-- The circle entities of a DXF entity list. -/
def dxfCircles (es : List DxfEntity) : List DxfEntity :=
  es.filter (fun e => match e with | .circle _ _ => true | _ => false)

/-- The circle patches of a sketch patch list. -/
def sketchCircles (ps : List SketchPatch) : List SketchPatch :=
  ps.filter (fun p => match p with | .circle _ _ => true | _ => false)

example : computeHole 36 36 ⟨0, 6, 6, 6, 6, 0⟩ =
    ⟨24, 18, 18, 24, 24⟩ := by
  norm_num [computeHole, numProvided, hasLeft, hasRight, hasFront, hasBack]

example : computeHole 36 36 ⟨0, 6, 8, 0, 5, 0⟩ =
    ⟨22, 17, 20, 22, 0⟩ := by
  norm_num [computeHole, numProvided, hasLeft, hasRight, hasFront, hasBack]

example : mismatchWarning 36 38 ⟨0, 6, 6, 6, 7, 0⟩ = true := by
  norm_num [mismatchWarning, computeHole, numProvided, hasLeft, hasRight, hasFront, hasBack]

/-- With at least three provided distances, each axis has at least one
provided side. -/
lemma both_axes_of_three (hi : HoleInput) (h3 : 3 ≤ numProvided hi) :
    (hasLeft hi = true ∨ hasRight hi = true)
    ∧ (hasFront hi = true ∨ hasBack hi = true) := by
  unfold numProvided at h3
  cases hL : hasLeft hi <;> cases hR : hasRight hi <;>
    cases hF : hasFront hi <;> cases hB : hasBack hi <;> simp_all

/-- With at least three provided distances and one Y side missing, both X
sides are provided. -/
lemma xside_both_of_missing_yside (hi : HoleInput) (h3 : 3 ≤ numProvided hi)
    (h : hasFront hi = false ∨ hasBack hi = false) :
    hasLeft hi = true ∧ hasRight hi = true := by
  unfold numProvided at h3
  cases hL : hasLeft hi <;> cases hR : hasRight hi <;>
    cases hF : hasFront hi <;> cases hB : hasBack hi <;> simp_all

/-- Claim C1: with at least 3 provided distances, if all four sides are
provided the final computed diameter is the arithmetic mean of
`diameter_x = width - left - right` and
`diameter_y = length - front - back`; if front and back are provided but
not both of left and right, the final diameter is `diameter_y` alone. -/
theorem final_diameter_selection (width length : ℚ) (hi : HoleInput)
    (h3 : 3 ≤ numProvided hi) :
    (hasLeft hi = true → hasRight hi = true → hasFront hi = true → hasBack hi = true →
      (computeHole width length hi).diameter
        = ((width - hi.left - hi.right) + (length - hi.front - hi.back)) / 2)
    ∧ (hasFront hi = true → hasBack hi = true → ¬(hasLeft hi = true ∧ hasRight hi = true) →
      (computeHole width length hi).diameter = length - hi.front - hi.back) := by
  constructor
  · intro hL hR hF hB
    simp [computeHole, h3, hL, hR, hF, hB]
  · intro hF hB hnot
    have h' : (hasLeft hi && hasRight hi) = false := by
      cases h1 : hasLeft hi <;> cases h2 : hasRight hi <;> simp_all
    simp [computeHole, h3, hF, hB, h']

/-- Witness for C1 at width 36, length 40, distances
left 6, right 6, back 6, front 7. -/
theorem final_diameter_selection_witness :
    3 ≤ numProvided ⟨0, 6, 6, 6, 7, 0⟩ ∧
    (computeHole 36 40 ⟨0, 6, 6, 6, 7, 0⟩).diameter
      = ((36 - (6 : ℚ) - 6) + (40 - 7 - 6)) / 2 :=
  ⟨by decide,
    (final_diameter_selection 36 40 ⟨0, 6, 6, 6, 7, 0⟩ (by decide)).1
      (by decide) (by decide) (by decide) (by decide)⟩

/-- Claim C3: with at least 3 provided distances and exactly one of
front/back provided, the final diameter is the X-derived
`width - left - right`, and the y-center is `back + diameter/2` (only
back) or `length - front - diameter/2` (only front); concretely,
width 36, length 36, left 6, right 8, front 5 resolves to diameter 22,
x 17, y 20. -/
theorem yside_fallback (width length : ℚ) (hi : HoleInput)
    (h3 : 3 ≤ numProvided hi) :
    (hasBack hi = true → hasFront hi = false →
      (computeHole width length hi).diameter = width - hi.left - hi.right
      ∧ (computeHole width length hi).y_pos
          = hi.back + (width - hi.left - hi.right) / 2)
    ∧ (hasFront hi = true → hasBack hi = false →
      (computeHole width length hi).diameter = width - hi.left - hi.right
      ∧ (computeHole width length hi).y_pos
          = length - hi.front - (width - hi.left - hi.right) / 2)
    ∧ computeHole 36 36 ⟨0, 6, 8, 0, 5, 0⟩ = ⟨22, 17, 20, 22, 0⟩ := by
  refine ⟨?_, ?_, ?_⟩
  · intro hB hF
    obtain ⟨hL, hR⟩ := xside_both_of_missing_yside hi h3 (Or.inl hF)
    simp [computeHole, h3, hL, hR, hF, hB]
  · intro hF hB
    obtain ⟨hL, hR⟩ := xside_both_of_missing_yside hi h3 (Or.inr hB)
    simp [computeHole, h3, hL, hR, hF, hB]
  · norm_num [computeHole, numProvided, hasLeft, hasRight, hasFront, hasBack]

/-- Witness for C3 at width 36, length 36, left 6, right 8, front 5. -/
theorem yside_fallback_witness :
    3 ≤ numProvided ⟨0, 6, 8, 0, 5, 0⟩ ∧
    ((computeHole 36 36 ⟨0, 6, 8, 0, 5, 0⟩).diameter = 36 - (6 : ℚ) - 8
     ∧ (computeHole 36 36 ⟨0, 6, 8, 0, 5, 0⟩).y_pos
         = 36 - 5 - (36 - (6 : ℚ) - 8) / 2) :=
  ⟨by decide,
    (yside_fallback 36 36 ⟨0, 6, 8, 0, 5, 0⟩ (by decide)).2.1
      (by decide) (by decide)⟩

/-- Claim C2: the submission is rejected with the insufficient-measurements
message exactly when some hole has fewer than 3 positive distances; with
all holes at 3 or more, a submission is always produced with the holes
resolved and no further validation — concretely, width 10, length 20,
left 6, right 6, back 3 yields a hole of negative diameter -2 that is
returned silently. -/
theorem insufficient_rejection (f : FormInput) :
    ((∃ hi ∈ f.holeInputs, numProvided hi < 3) →
        processSubmission f = Except.error insufficientMsg)
    ∧ ((∀ hi ∈ f.holeInputs, 3 ≤ numProvided hi) →
        ∃ s : Submission, processSubmission f = Except.ok s
          ∧ s.holes = f.holeInputs.map (mkHole f.width f.length))
    ∧ (∃ s : Submission,
        processSubmission ⟨10, 20, 1/4, 2, true, [⟨0, 6, 6, 3, 0, 0⟩]⟩ = Except.ok s
          ∧ s.holes.map Hole.diameter = [-2]) := by
  refine ⟨?_, ?_, ?_⟩
  · rintro ⟨hi, hmem, hlt⟩
    have hv : all_valid f = false := by
      rw [all_valid, List.all_eq_false]
      exact ⟨hi, hmem, by simpa using hlt⟩
    simp [processSubmission, hv]
  · intro hall
    have hv : all_valid f = true := by
      rw [all_valid, List.all_eq_true]
      intro hi hmem
      simpa using hall hi hmem
    exact ⟨⟨f.holeInputs.map (mkHole f.width f.length),
        sketchPatches (f.width + f.fit_tolerance) (f.length + f.fit_tolerance)
          f.flange_length f.add_kickout (f.holeInputs.map (mkHole f.width f.length))⟩,
      by simp [processSubmission, hv], rfl⟩
  · refine ⟨_, rfl, ?_⟩
    norm_num [processSubmission, all_valid, mkHole, computeHole, numProvided,
      hasLeft, hasRight, hasFront, hasBack]

/-- Witness for C2: a single hole with only left 6 and right 6 provided is
insufficient and the submission is rejected. -/
theorem insufficient_rejection_witness :
    (∃ hi ∈ FormInput.holeInputs ⟨36, 36, 1/4, 2, true, [⟨0, 6, 6, 0, 0, 0⟩]⟩,
        numProvided hi < 3)
    ∧ processSubmission ⟨36, 36, 1/4, 2, true, [⟨0, 6, 6, 0, 0, 0⟩]⟩
        = Except.error insufficientMsg :=
  ⟨⟨⟨0, 6, 6, 0, 0, 0⟩, by decide⟩,
    (insufficient_rejection ⟨36, 36, 1/4, 2, true, [⟨0, 6, 6, 0, 0, 0⟩]⟩).1
      ⟨⟨0, 6, 6, 0, 0, 0⟩, by decide⟩⟩

/-- Claim C4: whenever both left and right are provided (within a valid,
at-least-3 resolution) the X outputs round-trip: `diameter_x` is
`width - left - right`, `x = left + diameter_x/2`, so
`x - diameter_x/2 = left` and `width - x - diameter_x/2 = right`; and
symmetrically on the Y axis, whenever front and back are both provided,
`diameter_y = length - front - back` and `y = back + diameter_y/2`. -/
theorem roundtrip_two_sided (width length : ℚ) (hi : HoleInput)
    (hw : 0 < width) (hlpos : 0 < hi.left) (hrpos : 0 < hi.right)
    (hsum : hi.left + hi.right < width) (h3 : 3 ≤ numProvided hi) :
    ((computeHole width length hi).diameter_x = width - hi.left - hi.right
     ∧ (computeHole width length hi).x_pos
         = hi.left + (computeHole width length hi).diameter_x / 2
     ∧ (computeHole width length hi).x_pos
         - (computeHole width length hi).diameter_x / 2 = hi.left
     ∧ width - (computeHole width length hi).x_pos
         - (computeHole width length hi).diameter_x / 2 = hi.right)
    ∧ (hasFront hi = true → hasBack hi = true →
        (computeHole width length hi).diameter_y = length - hi.front - hi.back
        ∧ (computeHole width length hi).y_pos
            = hi.back + (computeHole width length hi).diameter_y / 2) := by
  have hL : hasLeft hi = true := by simp [hasLeft, hlpos]
  have hR : hasRight hi = true := by simp [hasRight, hrpos]
  constructor
  · cases hF : hasFront hi <;> cases hB : hasBack hi <;>
      refine ⟨?_, ?_, ?_, ?_⟩ <;>
      simp [computeHole, h3, hL, hR, hF, hB] <;> ring
  · intro hF hB
    constructor <;> simp [computeHole, h3, hL, hR, hF, hB]

/-- Witness for C4 at width 36, length 36, left 6, right 8, back 3. -/
theorem roundtrip_two_sided_witness :
    ((0 : ℚ) < 36 ∧ (0 : ℚ) < 6 ∧ (0 : ℚ) < 8 ∧ (6 : ℚ) + 8 < 36
      ∧ 3 ≤ numProvided ⟨0, 6, 8, 3, 0, 0⟩)
    ∧ (computeHole 36 36 ⟨0, 6, 8, 3, 0, 0⟩).x_pos
        - (computeHole 36 36 ⟨0, 6, 8, 3, 0, 0⟩).diameter_x / 2
        = HoleInput.left ⟨0, 6, 8, 3, 0, 0⟩ :=
  ⟨⟨by decide, by decide, by decide, by norm_num, by decide⟩,
    ((roundtrip_two_sided 36 36 ⟨0, 6, 8, 3, 0, 0⟩ (by decide) (by decide)
      (by decide) (by norm_num) (by decide)).1).2.2.1⟩

/-- Claim C5: with all four distances provided, the mismatch warning fires
exactly when the two axis diameters differ by more than 0.1 inch, and it
is non-fatal: the computed diameter is still the mean of the two axis
values and a submission containing such a hole is accepted, whatever the
remaining form options are. -/
theorem mismatch_warning_iff (width length : ℚ) (hi : HoleInput)
    (hL : hasLeft hi = true) (hR : hasRight hi = true)
    (hF : hasFront hi = true) (hB : hasBack hi = true) :
    (mismatchWarning width length hi = true ↔
      |(width - hi.left - hi.right) - (length - hi.front - hi.back)| > 1 / 10)
    ∧ (computeHole width length hi).diameter
        = ((width - hi.left - hi.right) + (length - hi.front - hi.back)) / 2
    ∧ (∀ tol flange : ℚ, ∀ ko : Bool,
        ∃ s : Submission,
          processSubmission ⟨width, length, tol, flange, ko, [hi]⟩ = Except.ok s) := by
  have h3 : 3 ≤ numProvided hi := by simp [numProvided, hL, hR, hF, hB]
  refine ⟨?_, ?_, ?_⟩
  · simp [mismatchWarning, computeHole, h3, hL, hR, hF, hB]
  · simp [computeHole, h3, hL, hR, hF, hB]
  · intro tol flange ko
    have hv : all_valid ⟨width, length, tol, flange, ko, [hi]⟩ = true := by
      simp [all_valid, h3]
    exact ⟨⟨[mkHole width length hi],
        sketchPatches (width + tol) (length + tol) flange ko [mkHole width length hi]⟩,
      by simp [processSubmission, hv]⟩

/-- Witness for C5 at width 36, length 38, left 6, right 6, back 6,
front 7 (axis diameters 24 and 25, mismatch). -/
theorem mismatch_warning_iff_witness :
    (hasLeft ⟨0, 6, 6, 6, 7, 0⟩ = true ∧ hasRight ⟨0, 6, 6, 6, 7, 0⟩ = true
      ∧ hasFront ⟨0, 6, 6, 6, 7, 0⟩ = true ∧ hasBack ⟨0, 6, 6, 6, 7, 0⟩ = true)
    ∧ (mismatchWarning 36 38 ⟨0, 6, 6, 6, 7, 0⟩ = true ↔
        |(36 - (6 : ℚ) - 6) - (38 - 7 - 6)| > 1 / 10) :=
  ⟨⟨by decide, by decide, by decide, by decide⟩,
    (mismatch_warning_iff 36 38 ⟨0, 6, 6, 6, 7, 0⟩ (by decide) (by decide)
      (by decide) (by decide)).1⟩

/-- Claim C6: the final diameter stored in a Hole record is the
user-supplied measured diameter when positive, else the computed
diameter, and it is the diameter used downstream: the sketch circles and
the DXF circles are drawn with each stored hole diameter / 2, and the
email and JSON circumferences multiply the stored diameter. -/
theorem measured_diameter_override (width length pi_v aw al fl : ℚ)
    (ko : Bool) (hi : HoleInput) (hs : List Hole) :
    (mkHole width length hi).diameter
      = (if 0 < hi.measured_diameter then hi.measured_diameter
         else (computeHole width length hi).diameter)
    ∧ sketchCircles (sketchPatches aw al fl ko hs)
        = hs.map (fun h => SketchPatch.circle (h.x, h.y) (h.diameter / 2))
    ∧ dxfCircles (create_dxf_buffer aw al fl ko hs)
        = hs.map (fun h => DxfEntity.circle (h.x, h.y) (h.diameter / 2))
    ∧ emailCircumference pi_v (mkHole width length hi)
        = pi_v * (mkHole width length hi).diameter
    ∧ jsonCircumference pi_v (mkHole width length hi)
        = pi_v * (mkHole width length hi).diameter := by
  refine ⟨rfl, ?_, ?_, rfl, rfl⟩
  · cases ko <;>
      (simp [sketchCircles, sketchPatches, List.filter_append, List.filter_map,
        Function.comp]
       <;> exact congrArg _ (List.filter_eq_self.mpr (fun a _ => rfl)))
  · cases ko <;>
      (simp [dxfCircles, create_dxf_buffer, List.filter_append, List.filter_map,
        Function.comp]
       <;> exact congrArg _ (List.filter_eq_self.mpr (fun a _ => rfl)))

/-- Claim C7: both the email-body circumference and the JSON-snapshot
circumference of a resolved hole equal pi times the final
diameter (measured when positive, else computed). -/
theorem circumference_pi_times_final (pi_v width length : ℚ) (hi : HoleInput) :
    emailCircumference pi_v (mkHole width length hi)
      = pi_v * (if 0 < hi.measured_diameter then hi.measured_diameter
                else (computeHole width length hi).diameter)
    ∧ jsonCircumference pi_v (mkHole width length hi)
      = pi_v * (if 0 < hi.measured_diameter then hi.measured_diameter
                else (computeHole width length hi).diameter) :=
  ⟨rfl, rfl⟩

/-- Claim C8: the emitted DXF contains exactly the base rectangle, the
flange rectangle offset outward by the flange length, then two further
rectangles at additional offsets 0.5 and 0.875 with kickout or one at
0.375 without, and one circle per hole at (x, y) with radius
diameter / 2. -/
theorem dxf_outline_contents (width length fl : ℚ) (ko : Bool) (hs : List Hole) :
    create_dxf_buffer width length fl ko hs = dxfOutlineSpec width length fl ko hs := by
  cases ko <;>
    simp [create_dxf_buffer, dxfOutlineSpec, offsetRect, Prod.ext_iff] <;>
    norm_num <;> and_intros <;> ring

/-- Claim C9: with at least 3 of the 4 edge distances positive, at least
one of left/right and at least one of front/back is provided, so the
neither-side branch of each axis is unreachable for a valid hole. -/
theorem valid_hole_both_axes (hi : HoleInput) (h3 : 3 ≤ numProvided hi) :
    (hasLeft hi = true ∨ hasRight hi = true)
    ∧ (hasFront hi = true ∨ hasBack hi = true) :=
  both_axes_of_three hi h3

/-- Witness for C9 at left 6, right 8, front 5. -/
theorem valid_hole_both_axes_witness :
    3 ≤ numProvided ⟨0, 6, 8, 0, 5, 0⟩ ∧
    ((hasLeft ⟨0, 6, 8, 0, 5, 0⟩ = true ∨ hasRight ⟨0, 6, 8, 0, 5, 0⟩ = true)
      ∧ (hasFront ⟨0, 6, 8, 0, 5, 0⟩ = true ∨ hasBack ⟨0, 6, 8, 0, 5, 0⟩ = true)) :=
  ⟨by decide, valid_hole_both_axes ⟨0, 6, 8, 0, 5, 0⟩ (by decide)⟩

/-- Claim C10: hole geometry is independent of the fit tolerance — two
submissions identical except for fit_tolerance resolve to the same holes
(same diameters and centers) — while the exported outline starts with
the tolerance-enlarged base rectangle; consequently a hole centered on
the measured panel sits fit_tolerance / 2 off the enlarged
cover center. -/
theorem fit_tolerance_independence (f1 f2 : FormInput) (hs : List Hole)
    (hw : f1.width = f2.width) (hl : f1.length = f2.length)
    (hfl : f1.flange_length = f2.flange_length)
    (hk : f1.add_kickout = f2.add_kickout)
    (hh : f1.holeInputs = f2.holeInputs) :
    Except.map Submission.holes (processSubmission f1)
      = Except.map Submission.holes (processSubmission f2)
    ∧ (exportDxf f1 hs).head?
        = some (DxfEntity.polyline (0, 0) (f1.width + f1.fit_tolerance, 0)
            (f1.width + f1.fit_tolerance, f1.length + f1.fit_tolerance)
            (0, f1.length + f1.fit_tolerance))
    ∧ (∀ h : Hole, h.x = f1.width / 2 →
        (f1.width + f1.fit_tolerance) / 2 - h.x = f1.fit_tolerance / 2) := by
  refine ⟨?_, ?_, ?_⟩
  · have hv : all_valid f1 = all_valid f2 := by
      simp [all_valid, hh]
    cases h2 : all_valid f2 with
    | false =>
      simp [processSubmission, hv, h2]
    | true =>
      simp [processSubmission, hv, h2, Except.map, hw, hl, hh]
  · simp [exportDxf, create_dxf_buffer]
  · intro h hx
    rw [hx]
    ring

/-- Witness for C10: two concrete submissions differing only in fit
tolerance (0.25 vs 0.5) yield the same resolved holes. -/
theorem fit_tolerance_independence_witness :
    (FormInput.width ⟨36, 36, 1/4, 2, true, [⟨0, 6, 6, 6, 6, 0⟩]⟩
        = FormInput.width ⟨36, 36, 1/2, 2, true, [⟨0, 6, 6, 6, 6, 0⟩]⟩)
    ∧ Except.map Submission.holes
        (processSubmission ⟨36, 36, 1/4, 2, true, [⟨0, 6, 6, 6, 6, 0⟩]⟩)
      = Except.map Submission.holes
        (processSubmission ⟨36, 36, 1/2, 2, true, [⟨0, 6, 6, 6, 6, 0⟩]⟩) :=
  ⟨rfl,
    (fit_tolerance_independence ⟨36, 36, 1/4, 2, true, [⟨0, 6, 6, 6, 6, 0⟩]⟩
      ⟨36, 36, 1/2, 2, true, [⟨0, 6, 6, 6, 6, 0⟩]⟩ []
      rfl rfl rfl rfl rfl).1⟩
